import Mathlib

/-!
Shallow embedding of the template engine of `src/templateManager.js`
(class `TemplateManager`), together with the parts of its environment the
claims need.

Modelling conventions, used throughout:

* JavaScript objects are modelled as Lean structures whose possibly-absent
  properties are `Option`s; JS object key-value maps (`templates`, `tiles`,
  `chunked`) are association lists in insertion order, which matches
  `Object.keys` / `for..in` enumeration order for the non-index string keys
  this code uses.
* JS numbers appearing in the engine are integers (the spec's data model
  declares coordinates, sort ids and pixel counts integral); the value `NaN`
  and the infinities are represented explicitly by `JSNum` where the code
  tests for them.  Fractional literals never arise in the modelled flows.
* `Blob`s and `ImageBitmap`s are identified with their decoded images
  (`Image`): a width, a height and an RGBA pixel function.  PNG
  encode/decode round-trips are modelled as the identity.
* Canvas 2D compositing (`drawImage`, default `source-over`) is modelled
  from the HTML canvas specification with exact arithmetic; the fully
  opaque and fully transparent cases, the only ones any claim touches, are
  independent of the platform's internal precision.
* The repository snapshot contains only `src/main.js` and
  `src/templateManager.js`; `src/Template.js` and `src/utils.js` are
  imported but absent.  The pieces of them this file needs are modelled
  from the spec and marked as such in their doc comments.
* Persistence sinks (`GM.setValue` / `localStorage`) are outside the
  state any claim mentions, so `#storeTemplates` has no model; the JSON
  document it would serialize (`templatesJSON`) is modelled fully.
* In flows where a stored document lacks a `templates` map the JS code
  would throw a `TypeError` on property access; the model reads such a map
  as empty (`Option.getD []`).  No claim exercises these flows.
-/

/-! ## JS numbers and strings -/

/-- A JavaScript number as used by the engine: an integer, `NaN`, or an
infinity.  (`updateTemplateCoordinates` tests `isNaN` and `isFinite`.) -/
inductive JSNum where
  | num (v : Int)
  | nan
  | inf
  | negInf
deriving DecidableEq, Repr

/-- `isNaN(x)` for a `JSNum`. -/
def JSNum.isNaNB : JSNum → Bool
  | .nan => true
  | _ => false

/-- `isFinite(x)` for a `JSNum`. -/
def JSNum.isFiniteB : JSNum → Bool
  | .num _ => true
  | _ => false

/-- JS `toString` on a number (integers render in decimal). -/
def JSNum.render : JSNum → String
  | .num v => toString v
  | .nan => "NaN"
  | .inf => "Infinity"
  | .negInf => "-Infinity"

/-- `Array.prototype.join(sep)` on an array of numbers. -/
def joinNums (sep : String) : List JSNum → String
  | [] => ""
  | [x] => x.render
  | x :: xs => x.render ++ sep ++ joinNums sep xs

/-- `Array.prototype.join(sep)` on an array of strings. -/
def joinStrs (sep : String) : List String → String
  | [] => ""
  | [x] => x
  | x :: xs => x ++ sep ++ joinStrs sep xs

/-- Helper for `jsSplit`: split a character list at every occurrence of
`c`, accumulating the current chunk in reverse. -/
def jsSplitAux (c : Char) : List Char → List Char → List String
  | [], acc => [String.mk acc.reverse]
  | d :: rest, acc =>
      if d = c then String.mk acc.reverse :: jsSplitAux c rest []
      else jsSplitAux c rest (d :: acc)

/-- JS `String.prototype.split(c)` for a single-character separator
(the engine only splits on `' '` and `','`).  `"".split(c)` gives `[""]`
and empty chunks are kept, as in JS. -/
def jsSplit (c : Char) (s : String) : List String := jsSplitAux c s.data []

/-- JS `String.prototype.startsWith`. -/
def strStarts (s p : String) : Bool := p.data.isPrefixOf s.data

/-- JS `String.prototype.padStart(4, '0')`. -/
def padStart4 (s : String) : String :=
  if s.data.length < 4 then String.mk (List.replicate (4 - s.data.length) '0') ++ s
  else s

/-- Helper for `removeFirstSpace`: drop the first space of a character
list. -/
def dropFirstSpace : List Char → List Char
  | [] => []
  | c :: rest => if c = ' ' then rest else c :: dropFirstSpace rest

/-- JS `name.replace(' ', '')`: remove only the first space
(non-global string-pattern `replace`, used by `createJSON`). -/
def removeFirstSpace (s : String) : String :=
  String.mk (dropFirstSpace s.data)

/-- JS `name.replace(/\s+/g, '')`: remove all whitespace
(used by `importJSON` to build the current identity). -/
def stripWhitespace (s : String) : String :=
  String.mk (s.data.filter (fun c => !(c = ' ' || c = '\t' || c = '\n' || c = '\r')))

/-- Decimal value of a digit list, most significant first. -/
def digitsVal (l : List Char) : Nat :=
  l.foldl (fun a c => a * 10 + (c.toNat - '0'.toNat)) 0

/-- JS `Number(s)` restricted to the strings the engine feeds it: the empty
string (value `0`), decimal digit strings, and `'-'` followed by digits.
`none` stands for `NaN`.  (JS also accepts fractional, exponent, hex and
whitespace-padded forms; none arise from the integral keys and offsets of
the spec's data model, so they are outside the model.) -/
def jsNumberInt (s : String) : Option Int :=
  match s.data with
  | [] => some 0
  | '-' :: rest =>
      if rest ≠ [] && rest.all Char.isDigit then some (-(digitsVal rest : Int)) else none
  | l => if l.all Char.isDigit then some (digitsVal l : Int) else none

/-! ## Images, pixels and canvas compositing -/

/-- An 8-bit straight-alpha RGBA pixel; `a = 0` is fully transparent and
`a = 255` fully opaque. -/
structure Pixel where
  r : Nat
  g : Nat
  b : Nat
  a : Nat
deriving DecidableEq, Repr

/-- A decoded image: dimensions plus a pixel function.  Values of `data`
outside `[0, width) × [0, height)` are irrelevant (never drawn or read). -/
structure Image where
  width : Nat
  height : Nat
  data : Nat → Nat → Pixel

/-- The canonical fully transparent pixel: a canvas stores premultiplied
alpha, so every fully transparent pixel reads back as `(0,0,0,0)`. -/
def transparent : Pixel := ⟨0, 0, 0, 0⟩

/-- Normalize a pixel the way a premultiplied-alpha canvas round-trip does:
fully transparent pixels lose their color channels. -/
def normPix (p : Pixel) : Pixel := if p.a = 0 then transparent else p

/-- `source-over` compositing of `s` onto `d`, modelled from the HTML
canvas specification.  The fully transparent and fully opaque source cases
and the transparent destination case are exact; the mixed case uses the
premultiplied formula with floor division (the platform's internal
precision is unspecified; no claim depends on the mixed case). -/
def pixOver (s d : Pixel) : Pixel :=
  if s.a = 0 then d
  else if s.a = 255 then s
  else if d.a = 0 then s
  else
    let aon := 255 * s.a + d.a * (255 - s.a)
    { r := (s.r * s.a * 255 + d.r * d.a * (255 - s.a)) / aon
      g := (s.g * s.a * 255 + d.g * d.a * (255 - s.a)) / aon
      b := (s.b * s.a * 255 + d.b * d.a * (255 - s.a)) / aon
      a := aon / 255 }

/-- A blank (fully transparent) surface, as produced by a fresh
`OffscreenCanvas` followed by `clearRect` over its full extent. -/
def Image.blank (w h : Nat) : Image := ⟨w, h, fun _ _ => transparent⟩

/-- `context.drawImage(src, 0, 0, dw, dh)` with smoothing disabled:
scale `src` to `dw × dh` with nearest-neighbor sampling and composite it
source-over onto `dst`.  Sampling uses the floor convention
`srcX = x·srcWidth/dw`, which agrees with browser nearest-neighbor
sampling at the integral upscales the engine performs. -/
def drawImageScaled (dst src : Image) (dw dh : Nat) : Image :=
  { dst with data := fun x y =>
      if x < dst.width ∧ y < dst.height ∧ x < dw ∧ y < dh then
        pixOver (src.data (x * src.width / dw) (y * src.height / dh)) (dst.data x y)
      else dst.data x y }

/-- `context.drawImage(src, dx, dy)` (unscaled, source-over), clipped to
the destination surface.  Offsets are integers; a call with non-finite
offsets is skipped by the caller, as the canvas specification requires. -/
def drawImageAt (dst src : Image) (dx dy : Int) : Image :=
  { dst with data := fun x y =>
      if x < dst.width ∧ y < dst.height ∧
         dx ≤ (x : Int) ∧ (x : Int) < dx + src.width ∧
         dy ≤ (y : Int) ∧ (y : Int) < dy + src.height then
        pixOver (src.data ((x : Int) - dx).toNat ((y : Int) - dy).toNat) (dst.data x y)
      else dst.data x y }

/-! ## Data model: Template, the JSON document, the Manager -/

/-- The Template entity.  Modelled from the spec: `src/Template.js` is not
part of the repository snapshot; §3 of the spec defines the entity as a
record binding identity (`sortID`, `authorID`), display and placement
metadata, the chunked bitmap map and the pixel count.  `coords` is `none`
when the constructor was not given coordinates (the import path omits
them). -/
structure Template where
  displayName : String
  sortID : Int
  authorID : String
  coords : Option (List JSNum)
  enabled : Bool
  chunked : List (String × Image)
  pixelCount : Nat

/-- One entry of the persisted document's `templates` map
(`{ name, coords, enabled, tiles, pixelCount }`); each property may be
absent in imported documents. -/
structure TemplateEntry where
  name : Option String
  coords : Option String
  enabled : Option Bool
  tiles : Option (List (String × String))
  pixelCount : Option Int
deriving DecidableEq, Repr

/-- The persisted collection document
`{ whoami, scriptVersion, schemaVersion, templates }`. -/
structure TemplatesJSON where
  whoami : Option String
  scriptVersion : Option String
  schemaVersion : Option String
  templates : Option (List (String × TemplateEntry))
deriving DecidableEq, Repr

/-- The `TemplateManager` state the claims are about.  The constants
`tileSize = 1000`, `drawMult = 3`, `templatesVersion = "1.0.0"` and the
encoding alphabet are fixed in the constructor and modelled as global
definitions. -/
structure Manager where
  name : String
  version : String
  userID : Option Nat
  templatesArray : List Template
  templatesJSON : Option TemplatesJSON
  templatesShouldBeDrawn : Bool

/-- `this.tileSize` (pixels per tile side). -/
def tileSize : Nat := 1000

/-- `this.drawMult` (the odd per-pixel enlargement factor). -/
def drawMult : Nat := 3

/-- `this.encodingBase` (the fixed 95-character alphabet). -/
def encodingBase : List Char :=
  "!#$%&\x27()*+,-./0123456789:;<=>?@ABCDEFGHIJKLMNOPQRSTUVWXYZ[]^_`abcdefghijklmnopqrstuvwxyz\x7b|\x7d~".data

/-- Digit expansion used by `numberToEncoded`, structured over a fuel
argument so the kernel can evaluate it (`n + 1` steps always suffice
because the radix is at least 2, so `n` at least halves each step). -/
def encodeDigitsAux (alphabet : List Char) : Nat → Nat → List Char
  | 0, _ => []
  | fuel + 1, n =>
      if n < alphabet.length then [alphabet.getD n ' ']
      else encodeDigitsAux alphabet fuel (n / alphabet.length) ++
           [alphabet.getD (n % alphabet.length) ' ']

/-- Modelled from the spec: `numberToEncoded` lives in `src/utils.js`,
which is not part of the repository snapshot.  Per §3 it is a fixed-
alphabet positional encoding: radix = alphabet length, most significant
digit first, `0` maps to the first alphabet character. -/
def numberToEncoded (n : Nat) (alphabet : List Char) : String :=
  String.mk (encodeDigitsAux alphabet (n + 1) n)

/-- Association-list lookup by key (JS property access `obj[key]`). -/
def lookupEntry {α : Type} (k : String) : List (String × α) → Option α
  | [] => none
  | (k', v) :: rest => if k' = k then some v else lookupEntry k rest

/-- JS property assignment `obj[key] = v`: overwrite in place if the key
exists (keeping its enumeration position), else append. -/
def upsertEntry {α : Type} (k : String) (v : α) : List (String × α) → List (String × α)
  | [] => [(k, v)]
  | (k', v') :: rest =>
      if k' = k then (k', v) :: rest else (k', v') :: upsertEntry k v rest

/-- `createJSON()`: the fresh document (`whoami` is the userscript name
with its first space removed, `schemaVersion` is `this.templatesVersion`). -/
def createJSON (mgr : Manager) : TemplatesJSON :=
  { whoami := some (removeFirstSpace mgr.name)
    scriptVersion := some mgr.version
    schemaVersion := some "1.0.0"
    templates := some [] }

/-- The `if (!this.templatesJSON) { this.templatesJSON = await this.createJSON(); }`
guard that opens every mutating operation. -/
def jsonInit (mgr : Manager) : Manager :=
  match mgr.templatesJSON with
  | none => { mgr with templatesJSON := some (createJSON mgr) }
  | some _ => mgr

/-- The current document of an initialized manager (after `jsonInit` the
`getD` never fires). -/
def curDoc (mgr : Manager) : TemplatesJSON := mgr.templatesJSON.getD (createJSON mgr)

/-- The `templates` map of the current document (empty when the document
is absent or lacks the map; see the module conventions). -/
def curTemplates (mgr : Manager) : List (String × TemplateEntry) :=
  (curDoc mgr).templates.getD []

/-- The stored coordinate string of key `k`, read from the JSON document
(used to state frame conditions). -/
def storedCoords (mgr : Manager) (k : String) : Option (Option String) :=
  (lookupEntry k (curTemplates mgr)).map (fun e => e.coords)

/-! ## Manager operations: create, delete, recoordinate -/

/-- The result of `Template.createTemplateTiles(tileSize)`.  Modelled from
the spec: the chunker lives in `src/Template.js`, which is not part of the
repository snapshot; per §4.1/§4.2 it returns the chunked tile bitmaps,
their encoded buffers and the exact total pixel count, so `createTemplate`
takes this result as an argument. -/
structure ChunkResult where
  templateTiles : List (String × Image)
  templateTilesBuffers : List (String × String)
  pixelCount : Nat

/-- `createTemplate(blob, name, coords)`:
assigns `sortID = Object.keys(this.templatesJSON.templates).length || 0`
(`x || 0` is the identity on a count), `authorID = numberToEncoded(this.userID || 0)`,
builds the Template (the constructor leaves it enabled; the persisted
entry is written `enabled: true`), writes the document entry under the
composite key and pushes the instance.  Status emission and persistence
are outside the modelled state. -/
def createTemplate (mgr : Manager) (chunk : ChunkResult) (name : String)
    (coords : List JSNum) : Manager :=
  let mgr := jsonInit mgr
  let doc := curDoc mgr
  let sortID : Int := ((doc.templates.getD []).length : Int)
  let authorID := numberToEncoded (mgr.userID.getD 0) encodingBase
  let t : Template :=
    { displayName := name
      sortID := sortID
      authorID := authorID
      coords := some coords
      enabled := true
      chunked := chunk.templateTiles
      pixelCount := chunk.pixelCount }
  let key := s!"{sortID} {authorID}"
  let entry : TemplateEntry :=
    { name := some name
      coords := some (joinNums ", " coords)
      enabled := some true
      tiles := some chunk.templateTilesBuffers
      pixelCount := some (chunk.pixelCount : Int) }
  { mgr with
      templatesJSON := some { doc with templates := some (upsertEntry key entry (doc.templates.getD [])) }
      templatesArray := mgr.templatesArray ++ [t] }

/-- Does the array template match a key split into its first two
space-separated parts?  (`template.sortID == Number(sortID) &&
template.authorID === authorID`; a `NaN` sort part matches nothing, a
missing author part matches no string.) -/
def keyMatches (sortPart : String) (authorPart : Option String) (t : Template) : Bool :=
  (match jsNumberInt sortPart with
   | some n => t.sortID = n
   | none => false) &&
  (authorPart = some t.authorID)

/-- `deleteTemplate(key)`: remove the document entry (if present) and
every array entry whose parsed `sortID`/`authorID` match. -/
def deleteTemplate (mgr : Manager) (key : String) : Manager :=
  let mgr := jsonInit mgr
  let doc := curDoc mgr
  let parts := jsSplit ' ' key
  let sortPart := parts.getD 0 ""
  let authorPart := parts.get? 1
  { mgr with
      templatesJSON := some { doc with templates := some ((doc.templates.getD []).filter (fun kv => kv.1 ≠ key)) }
      templatesArray := mgr.templatesArray.filter (fun t => !(keyMatches sortPart authorPart t)) }

/-- Replace the first list element satisfying `p` (the
`this.templatesArray.find(...)` + in-place mutation pattern). -/
def updateFirst {α : Type} (p : α → Bool) (f : α → α) : List α → List α
  | [] => []
  | x :: xs => if p x then f x :: xs else x :: updateFirst p f xs

/-- `updateTemplateCoordinates(key, newCoords)`: validate that
`newCoords` is a 4-element array of numbers that are neither `NaN` nor
infinite (`newCoords.map(Number)` is the identity on numbers); on failure
throw without touching the collection; on success write the joined string
into the document entry and the array into the matching instance, and
return the confirmation message.  The thrown/returned message travels in
the `Except`; the (initialized) manager is returned alongside. -/
def updateTemplateCoordinates (mgr : Manager) (key : String)
    (newCoords : List JSNum) : Manager × Except String String :=
  let mgr := jsonInit mgr
  if newCoords.length ≠ 4 then
    (mgr, .error "Coordinates must be an array of 4 numbers [tileX, tileY, pixelX, pixelY]")
  else if !(newCoords.all (fun c => !c.isNaNB && c.isFiniteB)) then
    (mgr, .error "All coordinates must be valid numbers")
  else
    let doc := curDoc mgr
    let templates' := (doc.templates.getD []).map
      (fun kv => if kv.1 = key then (kv.1, { kv.2 with coords := some (joinNums ", " newCoords) }) else kv)
    let parts := jsSplit ' ' key
    let sortPart := parts.getD 0 ""
    let authorPart := parts.get? 1
    let arr' := updateFirst (keyMatches sortPart authorPart)
      (fun t => { t with coords := some newCoords }) mgr.templatesArray
    let joined := joinNums ", " newCoords
    ({ mgr with
        templatesJSON := some { doc with templates := some templates' }
        templatesArray := arr' },
     .ok s!"Template coordinates updated to: {joined}")

/-! ## Tile compositor: `drawTemplateOnTile` -/

/-- The comparator `(a, b) => a.sortID - b.sortID` as an order relation. -/
def keyLe (a b : Template) : Prop := a.sortID ≤ b.sortID

instance : DecidableRel keyLe := fun a b => inferInstanceAs (Decidable (a.sortID ≤ b.sortID))

instance : IsTotal Template keyLe := ⟨fun a b => le_total a.sortID b.sortID⟩

instance : IsTrans Template keyLe := ⟨fun _ _ _ hab hbc => le_trans hab hbc⟩

/-- The in-place `templateArray.sort((a, b) => a.sortID - b.sortID)`.
`Array.prototype.sort` is stable, and a stable sort for a total preorder
has a unique result, so insertion sort models it exactly. -/
def jsSortTemplates (l : List Template) : List Template := List.insertionSort keyLe l

/-- The zero-padded `"tileX,tileY"` lookup key built from the requested
tile coordinates. -/
def tileCoordsKey (tx ty : Nat) : String :=
  padStart4 (toString tx) ++ "," ++ padStart4 (toString ty)

/-- Does a template own a fragment for this tile?
(`Object.keys(template.chunked).filter(tile => tile.startsWith(...)).length > 0`.) -/
def hasMatch (pre : String) (t : Template) : Bool :=
  t.chunked.any (fun kv => strStarts kv.1 pre)

/-- One element of `templatesToDraw`: the fragment bitmap plus the third
and fourth comma-separated components of its key (the intra-tile pixel
offsets, still as strings; they may be absent for malformed keys). -/
structure DrawEntry where
  bitmap : Image
  px : Option String
  py : Option String

/-- The per-template step of the `templatesToDraw` pipeline: take the
first fragment whose key has the tile prefix (`matchingTileBlobs?.[0]`),
or `null`. -/
def pickFragment (pre : String) (t : Template) : Option DrawEntry :=
  match t.chunked.filter (fun kv => strStarts kv.1 pre) with
  | [] => none
  | (k, bm) :: _ => some { bitmap := bm, px := (jsSplit ',' k).get? 2, py := (jsSplit ',' k).get? 3 }

/-- The draw loop: for each entry, `drawImage(bitmap, Number(px)*drawMult,
Number(py)*drawMult)`; the canvas ignores calls whose offsets are
non-finite. -/
def drawEntries (canvas : Image) (entries : List DrawEntry) : Image :=
  entries.foldl
    (fun c e =>
      match e.px.bind jsNumberInt, e.py.bind jsNumberInt with
      | some dx, some dy => drawImageAt c e.bitmap (dx * (drawMult : Int)) (dy * (drawMult : Int))
      | _, _ => c)
    canvas

/-- The candidate templates of a tile exactly as the status branch computes
them: the (sorted, in place) array filtered to templates with a matching
fragment that are enabled. -/
def candidateTemplates (mgr : Manager) (pre : String) : List Template :=
  (jsSortTemplates mgr.templatesArray).filter (fun t => hasMatch pre t && t.enabled)

/-- Result of `drawTemplateOnTile`: the returned blob (identified with its
decoded image), the status strings handed to
`overlay.handleDisplayStatus`, and the manager afterwards (the in-place
sort makes the call state-mutating). -/
structure DrawResult where
  blob : Image
  statuses : List String
  mgr : Manager

/-- `drawTemplateOnTile(tileBlob, tileCoords)`.  `fmt` is the
locale-dependent `Intl.NumberFormat().format` used in the non-zero status
message.  Mirrors the source: early return when templates should not be
drawn; in-place sort of `this.templatesArray`; filter enabled, pick at
most one fragment per template; status message (zero branch has no
locale-dependent part); blank 3000×3000 surface; live tile scaled up;
fragments drawn in order; PNG re-encode (identity in the model). -/
def drawTemplateOnTile (fmt : Nat → String) (mgr : Manager) (tileBlob : Image)
    (tx ty : Nat) : DrawResult :=
  if mgr.templatesShouldBeDrawn then
    let drawSize := tileSize * drawMult
    let pre := tileCoordsKey tx ty
    let sorted := jsSortTemplates mgr.templatesArray
    let mgr' := { mgr with templatesArray := sorted }
    let templatesToDraw := (sorted.filter (fun t => t.enabled)).filterMap (pickFragment pre)
    let templateCount := templatesToDraw.length
    let statuses :=
      if 0 < templateCount then
        let totalPixels := ((sorted.filter (fun t => hasMatch pre t && t.enabled)).map
          (fun t => t.pixelCount)).sum
        let plural := if templateCount = 1 then "" else "s"
        let formatted := fmt totalPixels
        [s!"Displaying {templateCount} template{plural}.\nTotal pixels: {formatted}"]
      else
        [s!"Displaying {templateCount} templates."]
    let canvas0 := Image.blank drawSize drawSize
    let canvas1 := drawImageScaled canvas0 tileBlob drawSize drawSize
    let final := drawEntries canvas1 templatesToDraw
    ⟨final, statuses, mgr'⟩
  else
    ⟨tileBlob, [], mgr⟩

/-! ## Pixel-count reconstructor: `#computePixelCountFromTiles` -/

/-- The inner `for (let x = 1; x < width; x += 3)` loop over one row `y`,
counting center cells with positive alpha.  Structured over a fuel
argument so the kernel can evaluate it; `img.width` units of fuel always
suffice since `x` advances by 3 each step. -/
def countRowFuel (img : Image) (y : Nat) : Nat → Nat → Nat
  | 0, _ => 0
  | fuel + 1, x =>
      if x < img.width then
        (if 0 < (img.data x y).a then 1 else 0) + countRowFuel img y fuel (x + 3)
      else 0

/-- The outer `for (let y = 1; y < height; y += 3)` loop (same fuel
treatment). -/
def countRowsFuel (img : Image) : Nat → Nat → Nat
  | 0, _ => 0
  | fuel + 1, y =>
      if y < img.height then
        countRowFuel img y img.width 1 + countRowsFuel img fuel (y + 3)
      else 0

/-- The per-bitmap center-cell count of `#computePixelCountFromTiles`
(both loops start at offset 1 and step by `drawMult = 3`). -/
def centerCount (img : Image) : Nat := countRowsFuel img img.height 1

/-- `#computePixelCountFromTiles(tileBitmaps)`: sum the center-cell counts
over all fragments, in order.  `getImageData` throws `IndexSizeError` when
asked for a zero-width or zero-height rectangle, which aborts the whole
computation; real `ImageBitmap`s always have positive dimensions. -/
def computePixelCountFromTiles : List (String × Image) → Except String Nat
  | [] => .ok 0
  | (_, img) :: rest =>
      if img.width = 0 ∨ img.height = 0 then
        .error "IndexSizeError: getImageData with a zero dimension"
      else
        match computePixelCountFromTiles rest with
        | .ok n => .ok (centerCount img + n)
        | .error e => .error e

/-- The set of cells the spec's Pixel-Count Reconstructor counts for one
fragment: both indices congruent to 1 modulo 3 and alpha positive.  This
is the claim-side definition C9 compares against the loops above. -/
def fragmentCenterCells (img : Image) : Nat :=
  ((Finset.range img.width ×ˢ Finset.range img.height).filter
    (fun p => p.1 % 3 = 1 ∧ p.2 % 3 = 1 ∧ 0 < (img.data p.1 p.2).a)).card

/-! ## Import: `importJSON` and `#parseBlueMarble` -/

/-- The fragment-decoding environment: `base64ToUint8` (from the absent
`src/utils.js`) followed by `createImageBitmap`; `none` models a rejected
decode (malformed base64 or undecodable image bytes). -/
def DecodeEnv : Type := String → Option Image

/-- Decode every tile of one entry, in order
(`base64 → Uint8Array → Blob → ImageBitmap`); the first failure rejects,
which aborts the whole parse. -/
def decodeTiles (dec : DecodeEnv) : List (String × String) → Except Unit (List (String × Image))
  | [] => .ok []
  | (k, b64) :: rest =>
      match dec b64 with
      | none => .error ()
      | some img =>
          match decodeTiles dec rest with
          | .ok tl => .ok ((k, img) :: tl)
          | .error e => .error e

/-- `${sortID || ''}` in the default display name: a truthy (nonzero,
non-`NaN`) parsed sort id renders in decimal, otherwise empty. -/
def renderFalsySort : Option Int → String
  | some n => if n ≠ 0 then toString n else ""
  | none => ""

/-- `sortID || this.templatesArray?.length || 0`: the parsed sort id if
truthy, else the current array length if nonzero, else 0. -/
def sortIDFallback (parsed : Option Int) (arrLen : Nat) : Int :=
  match parsed with
  | some n => if n ≠ 0 then n else (if arrLen ≠ 0 then (arrLen : Int) else 0)
  | none => if arrLen ≠ 0 then (arrLen : Int) else 0

/-- `Number(templateKey.split(' ')[0])`: the parsed sort-id part. -/
def parsedSortID (key : String) : Option Int :=
  jsNumberInt ((jsSplit ' ' key).getD 0 "")

/-- `templateKey.split(' ')[1] || '0'`: the author-id part (missing or
empty falls back to `"0"`; the later `authorID || ''` in the constructor
call is then the identity). -/
def parsedAuthorID (key : String) : String :=
  let raw := ((jsSplit ' ' key).get? 1).getD ""
  if raw = "" then "0" else raw

/-- `templateValue.name || `Template ${sortID || ''}``: the display name
with its falsy-default. -/
def parsedDisplayName (key : String) (entry : TemplateEntry) : String :=
  let nameRaw := (entry.name).getD ""
  let sortRender := renderFalsySort (parsedSortID key)
  if nameRaw = "" then s!"Template {sortRender}" else nameRaw

/-- The pixel-count resolution block of `#parseBlueMarble`: trust a
non-negative numeric persisted `pixelCount` verbatim; otherwise
reconstruct from the decoded tiles and write the result back into the
document entry; if the reconstruction throws, fall back to
`(fragmentCount || 1) × 500`, also written back.  Returns the instance
count and the (possibly updated) entry. -/
def resolvePixelCount (templateTiles : List (String × Image)) (entry : TemplateEntry) :
    Nat × TemplateEntry :=
  match entry.pixelCount with
  | some n =>
      if 0 ≤ n then (n.toNat, entry)
      else
        match computePixelCountFromTiles templateTiles with
        | .ok m => (m, { entry with pixelCount := some (m : Int) })
        | .error _ =>
            let tc := if templateTiles.length = 0 then 1 else templateTiles.length
            (tc * 500, { entry with pixelCount := some ((tc * 500 : Nat) : Int) })
  | none =>
      match computePixelCountFromTiles templateTiles with
      | .ok m => (m, { entry with pixelCount := some (m : Int) })
      | .error _ =>
          let tc := if templateTiles.length = 0 then 1 else templateTiles.length
          (tc * 500, { entry with pixelCount := some ((tc * 500 : Nat) : Int) })

/-- The body of one `#parseBlueMarble` loop iteration: split the composite
key, decode the tiles, build the `Template` instance, resolve the pixel
count.  Returns the instance and the (possibly written-back) document
entry; a tile decode failure rejects. -/
def parseOne (dec : DecodeEnv) (arrLen : Nat) (key : String) (entry : TemplateEntry) :
    Except Unit (Template × TemplateEntry) :=
  match decodeTiles dec (entry.tiles.getD []) with
  | .error e => .error e
  | .ok templateTiles =>
      .ok ({ displayName := parsedDisplayName key entry
             sortID := sortIDFallback (parsedSortID key) arrLen
             authorID := parsedAuthorID key
             coords := none
             enabled := entry.enabled.getD true
             chunked := templateTiles
             pixelCount := (resolvePixelCount templateTiles entry).1 },
           (resolvePixelCount templateTiles entry).2)

/-- `#parseBlueMarble(json)`: walk the `templates` map in order, pushing
one `Template` per entry and applying pixel-count writebacks to the
entries.  Returns the grown array, the updated entry list (same keys, in
order) and whether the walk completed; a decode rejection stops the walk
(the instances already pushed remain, later entries stay untouched) and
is caught and logged by the caller. -/
def parseLoop (dec : DecodeEnv) (arr : List Template) :
    List (String × TemplateEntry) → List Template × List (String × TemplateEntry) × Bool
  | [] => (arr, [], true)
  | (k, e) :: rest =>
      match parseOne dec arr.length k e with
      | .error _ => (arr, (k, e) :: rest, false)
      | .ok (t, e') =>
          let (arr', rest', ok) := parseLoop dec (arr ++ [t]) rest
          (arr', (k, e') :: rest', ok)

/-- The accepted `whoami` identifiers: the legacy and typo variants plus
the current userscript name with whitespace removed. -/
def acceptedWhoami (name : String) : List String :=
  ["BlueMarble", "BluePeanits", "BluePeanuts", stripWhitespace name]

/-- JS falsiness of the optional `whoami` string: `!json?.whoami` is true
when the property is absent (or null) and also when it is the empty
string. -/
def jsFalsyStr : Option String → Bool
  | none => true
  | some s => s = ""

/-- The identity-injection step of `importJSON`: a document whose `whoami`
is falsy (absent or empty) but which carries a `templates` object is
assumed to be ours and has the current identity written into it. -/
def injectWhoami (currentName : String) (json : TemplatesJSON) : TemplatesJSON :=
  if jsFalsyStr json.whoami ∧ json.templates ≠ none then
    { json with whoami := some currentName }
  else json

/-- `acceptedWhoami.includes(json?.whoami)`: an absent `whoami` is never
in the list. -/
def isAccepted (name : String) (json1 : TemplatesJSON) : Bool :=
  match json1.whoami with
  | some w => (acceptedWhoami name).contains w
  | none => false

/-- `importJSON(json)`.  Inject the current identity into a document whose
`whoami` is falsy (absent or the empty string) if it carries a `templates`
map; accept only recognized identities, otherwise warn (second component
`true`) and leave the state untouched.  On accept: an empty manager adopts
the document object itself, otherwise only absent composite keys are
copied in; then the parse runs, pushing instances and writing pixel counts
back into the document's entries — visible in the stored document exactly
for the entry objects it shares with the import (all of them on first
import, the newly copied ones on a merge). -/
def importJSON (dec : DecodeEnv) (mgr : Manager) (json : TemplatesJSON) :
    Manager × Bool :=
  let json1 := injectWhoami (stripWhitespace mgr.name) json
  if isAccepted mgr.name json1 then
    match mgr.templatesJSON with
    | none =>
        let (arr', upd, _ok) := parseLoop dec mgr.templatesArray (json1.templates.getD [])
        ({ mgr with
            templatesJSON := some { json1 with templates := (json1.templates.map (fun _ => upd)) }
            templatesArray := arr' }, false)
    | some cur =>
        let curT := cur.templates.getD []
        let incoming := json1.templates.getD []
        let fresh := incoming.filter (fun kv => lookupEntry kv.1 curT = none)
        let merged := curT ++ fresh
        let (arr', upd, _ok) := parseLoop dec mgr.templatesArray incoming
        let mergedUpd := merged.map
          (fun kv =>
            if (lookupEntry kv.1 curT).isNone then
              match lookupEntry kv.1 upd with
              | some e' => (kv.1, e')
              | none => kv
            else kv)
        ({ mgr with
            templatesJSON := some { cur with templates := some mergedUpd }
            templatesArray := arr' }, false)
  else
    (mgr, true)

/-! ## Concrete fixtures used by counterexamples and witnesses -/

/-- A freshly constructed manager (no document loaded, nothing created),
named like the userscript. -/
def freshManager : Manager :=
  { name := "Blue Peanits", version := "1.0", userID := none,
    templatesArray := [], templatesJSON := none, templatesShouldBeDrawn := true }

/-- A trivial chunker result (an empty artwork suffices for the identity
claims). -/
def emptyChunk : ChunkResult := ⟨[], [], 0⟩

/-- A stored document entry at coordinates `0, 0, 0, 0`. -/
def entryAtOrigin : TemplateEntry :=
  { name := some "A", coords := some "0, 0, 0, 0", enabled := some true,
    tiles := some [], pixelCount := some 0 }

/-- The matching runtime instance for `entryAtOrigin` under key `"0 !"`. -/
def templateAtOrigin : Template :=
  { displayName := "A", sortID := 0, authorID := "!",
    coords := some [.num 0, .num 0, .num 0, .num 0],
    enabled := true, chunked := [], pixelCount := 0 }

/-- A manager holding exactly the template `"0 !"` at the origin. -/
def managerWithOrigin : Manager :=
  { name := "Blue Peanits", version := "1.0", userID := none,
    templatesArray := [templateAtOrigin],
    templatesJSON := some
      { whoami := some "BluePeanits", scriptVersion := some "1.0",
        schemaVersion := some "1.0.0", templates := some [("0 !", entryAtOrigin)] },
    templatesShouldBeDrawn := true }

/-- A fully opaque red 3×3 bitmap. -/
def imgRed : Image := ⟨3, 3, fun _ _ => ⟨255, 0, 0, 255⟩⟩

/-- A fully opaque blue 3×3 bitmap. -/
def imgBlue : Image := ⟨3, 3, fun _ _ => ⟨0, 0, 255, 255⟩⟩

/-- A decode environment in which every fragment decodes (to `imgRed`). -/
def decodeAllRed : DecodeEnv := fun _ => some imgRed

/-- A one-template import document with a persisted pixel count. -/
def importDocOne : TemplatesJSON :=
  { whoami := some "BlueMarble", scriptVersion := some "0.9",
    schemaVersion := some "1.0.0",
    templates := some [("0 !", { name := some "T", coords := none, enabled := some true,
                                 tiles := some [("0000,0000,0,0", "AAAA")], pixelCount := some 4 })] }

/-- A fully opaque 1000×1000 live tile. -/
def liveTile1000 : Image := ⟨1000, 1000, fun _ _ => ⟨1, 2, 3, 255⟩⟩

/-- A template with sort id 5 owning the red fragment of tile (0,0) at
intra-tile offset (2, 3). -/
def templateSort5 : Template :=
  { displayName := "hi", sortID := 5, authorID := "!", coords := none,
    enabled := true, chunked := [("0000,0000,2,3", imgRed)], pixelCount := 9 }

/-- A template with sort id 2 owning the blue fragment of the same spot. -/
def templateSort2 : Template :=
  { displayName := "lo", sortID := 2, authorID := "#", coords := none,
    enabled := true, chunked := [("0000,0000,2,3", imgBlue)], pixelCount := 9 }

/-- A manager holding the two overlapping templates, higher sort id first
in the array. -/
def managerOverlap : Manager :=
  { name := "Blue Peanits", version := "1.0", userID := none,
    templatesArray := [templateSort5, templateSort2],
    templatesJSON := none, templatesShouldBeDrawn := true }

/-- A 6×3 shredded bitmap with opaque centers at (1,1) and (4,1). -/
def imgShred : Image :=
  ⟨6, 3, fun x y => if x % 3 = 1 ∧ y % 3 = 1 then ⟨9, 9, 9, 255⟩ else transparent⟩

/-- The identity number formatter (stands in for a concrete locale). -/
def plainFmt : Nat → String := fun n => toString n

/-- A document whose `whoami` is present but empty — falsy in JS — and
which carries a one-entry `templates` map (no tiles, trusted pixel
count). -/
def emptyWhoamiDoc : TemplatesJSON :=
  { whoami := some "", scriptVersion := none, schemaVersion := none,
    templates := some [("1 !", { name := some "N", coords := none, enabled := some true,
                                 tiles := none, pixelCount := some 0 })] }

/-! ## Helper lemmas -/

theorem jsonInit_templatesArray (mgr : Manager) :
    (jsonInit mgr).templatesArray = mgr.templatesArray := by
  unfold jsonInit
  cases mgr.templatesJSON <;> rfl

theorem jsonInit_name (mgr : Manager) : (jsonInit mgr).name = mgr.name := by
  unfold jsonInit
  cases mgr.templatesJSON <;> rfl

theorem curDoc_jsonInit (mgr : Manager) : curDoc (jsonInit mgr) = curDoc mgr := by
  unfold jsonInit curDoc
  cases h : mgr.templatesJSON <;> simp [h, createJSON]

theorem curTemplates_jsonInit (mgr : Manager) :
    curTemplates (jsonInit mgr) = curTemplates mgr := by
  unfold curTemplates
  rw [curDoc_jsonInit]

theorem storedCoords_jsonInit (mgr : Manager) (k : String) :
    storedCoords (jsonInit mgr) k = storedCoords mgr k := by
  unfold storedCoords
  rw [curTemplates_jsonInit]

/-- A finite `JSNum` is not `NaN`, so the validation predicate of
`updateTemplateCoordinates` collapses to finiteness. -/
theorem validNum_iff (c : JSNum) : (!c.isNaNB && c.isFiniteB) = true ↔ c.isFiniteB = true := by
  cases c <;> simp [JSNum.isNaNB, JSNum.isFiniteB]

theorem validAll_iff (cs : List JSNum) :
    cs.all (fun c => !c.isNaNB && c.isFiniteB) = true ↔ ∀ c ∈ cs, c.isFiniteB = true := by
  rw [List.all_eq_true]
  exact forall_congr' fun c => forall_congr' fun _ => validNum_iff c

/-! ## Claim C1 — coordinate-update validation -/

/-- C1, counterexample.  The claim says `updateTemplateCoordinates(key,
[2048, 0, 0, 0])` fails with a Validation error and leaves the stored
coordinates unchanged.  On the code it succeeds and rewrites the stored
coordinates in both the JSON document and the Template instance: the
validation checks only arity and finiteness, not the 0–2047 tile bound. -/
theorem claim1_counterexample :
    (updateTemplateCoordinates managerWithOrigin "0 !"
        [.num 2048, .num 0, .num 0, .num 0]).2.isOk = true ∧
    storedCoords managerWithOrigin "0 !" = some (some "0, 0, 0, 0") ∧
    storedCoords (updateTemplateCoordinates managerWithOrigin "0 !"
        [.num 2048, .num 0, .num 0, .num 0]).1 "0 !" = some (some "2048, 0, 0, 0") ∧
    ((updateTemplateCoordinates managerWithOrigin "0 !"
        [.num 2048, .num 0, .num 0, .num 0]).1.templatesArray.map (fun t => t.coords))
      = [some [.num 2048, .num 0, .num 0, .num 0]] := by
  refine ⟨by decide, by decide, by decide, by decide⟩

/-- C1, amended: `updateTemplateCoordinates` fails with a Validation error
exactly when `newCoords` is not a 4-element array or contains a `NaN` or
infinite entry, and in that case the stored coordinates (JSON document)
and the Template instances are untouched; finite out-of-bound values such
as tile index 2048 or negative entries are accepted and do update the
stored coordinates. -/
theorem claim1_amended_validation (mgr : Manager) (key : String) (cs : List JSNum) :
    ((updateTemplateCoordinates mgr key cs).2.isOk = false ↔
      ¬ (cs.length = 4 ∧ ∀ c ∈ cs, c.isFiniteB = true)) ∧
    (¬ (cs.length = 4 ∧ ∀ c ∈ cs, c.isFiniteB = true) →
      (∀ k, storedCoords (updateTemplateCoordinates mgr key cs).1 k = storedCoords mgr k) ∧
      (updateTemplateCoordinates mgr key cs).1.templatesArray = mgr.templatesArray) := by
  by_cases h4 : cs.length = 4
  · by_cases hfin : cs.all (fun c => !c.isNaNB && c.isFiniteB) = true
    · have hval : cs.length = 4 ∧ ∀ c ∈ cs, c.isFiniteB = true :=
        ⟨h4, (validAll_iff cs).mp hfin⟩
      unfold updateTemplateCoordinates
      rw [if_neg (not_not_intro h4), if_neg (by simp [hfin])]
      refine ⟨iff_of_false ?_ (not_not_intro hval), fun hcontra => absurd hval hcontra⟩
      simp [Except.isOk, Except.toBool]
    · have hval : ¬ (cs.length = 4 ∧ ∀ c ∈ cs, c.isFiniteB = true) := by
        intro h
        exact hfin ((validAll_iff cs).mpr h.2)
      unfold updateTemplateCoordinates
      rw [if_neg (not_not_intro h4), if_pos (by simp [hfin])]
      refine ⟨iff_of_true rfl hval, fun _ => ?_⟩
      exact ⟨fun k => storedCoords_jsonInit mgr k, jsonInit_templatesArray mgr⟩
  · have hval : ¬ (cs.length = 4 ∧ ∀ c ∈ cs, c.isFiniteB = true) := fun h => h4 h.1
    unfold updateTemplateCoordinates
    rw [if_pos h4]
    refine ⟨iff_of_true rfl hval, fun _ => ?_⟩
    exact ⟨fun k => storedCoords_jsonInit mgr k, jsonInit_templatesArray mgr⟩

/-- C1, witness for the amended theorem: a `NaN` entry is rejected and the
collection is untouched. -/
theorem claim1_amended_validation_witness :
    ((updateTemplateCoordinates managerWithOrigin "0 !"
        [.nan, .num 0, .num 0, .num 0]).2.isOk = false) ∧
    storedCoords (updateTemplateCoordinates managerWithOrigin "0 !"
        [.nan, .num 0, .num 0, .num 0]).1 "0 !" = storedCoords managerWithOrigin "0 !" ∧
    (updateTemplateCoordinates managerWithOrigin "0 !"
        [.nan, .num 0, .num 0, .num 0]).1.templatesArray = managerWithOrigin.templatesArray := by
  have hinv : ¬ (([JSNum.nan, .num 0, .num 0, .num 0] : List JSNum).length = 4 ∧
      ∀ c ∈ ([JSNum.nan, .num 0, .num 0, .num 0] : List JSNum), c.isFiniteB = true) := by
    decide
  have h := claim1_amended_validation managerWithOrigin "0 !" [.nan, .num 0, .num 0, .num 0]
  exact ⟨h.1.mpr hinv, (h.2 hinv).1 "0 !", (h.2 hinv).2⟩

/-! ## Claim C2 — sortID assignment and reuse -/

/-- C2, counterexample.  Create (sortID 0, key `"0 !"`), delete that key,
create again: the second creation is assigned sortID 0 — the very sortID
that belonged to the template deleted earlier in the session — refuting
"never assigned again". -/
theorem claim2_counterexample :
    ((createTemplate freshManager emptyChunk "A"
        [.num 0, .num 0, .num 0, .num 0]).templatesArray.map (fun t => t.sortID)) = [0] ∧
    ((deleteTemplate (createTemplate freshManager emptyChunk "A"
        [.num 0, .num 0, .num 0, .num 0]) "0 !").templatesArray.map (fun t => t.sortID)) = [] ∧
    ((curTemplates (deleteTemplate (createTemplate freshManager emptyChunk "A"
        [.num 0, .num 0, .num 0, .num 0]) "0 !")).map Prod.fst) = [] ∧
    ((createTemplate (deleteTemplate (createTemplate freshManager emptyChunk "A"
        [.num 0, .num 0, .num 0, .num 0]) "0 !") emptyChunk "B"
        [.num 1, .num 1, .num 0, .num 0]).templatesArray.map (fun t => t.sortID)) = [0] := by
  refine ⟨by decide, by decide, by decide, by decide⟩

/-- C2, amended: the sortID assigned by `createTemplate` equals the number
of entries in the persisted `templates` collection at the moment of
creation; sortIDs are **not** monotonic per session — after a deletion the
count drops, so a deleted template's sortID can be assigned again. -/
theorem claim2_amended_sortid_assignment (mgr : Manager) (chunk : ChunkResult)
    (nm : String) (cs : List JSNum) :
    ((createTemplate mgr chunk nm cs).templatesArray.map (fun t => t.sortID))
      = (mgr.templatesArray.map (fun t => t.sortID)) ++ [((curTemplates mgr).length : Int)] := by
  unfold createTemplate
  simp [jsonInit_templatesArray, curTemplates, curDoc_jsonInit]

/-! ## Claim C5 — in-place sort during compositing -/

/-- C5: demonstration of the divergence.  The claim says
`drawTemplateOnTile` leaves `templatesArray`, including its element order,
unchanged; but `templateArray.sort(...)` aliases `this.templatesArray`
(despite the "stores a copy" comment in the source) and reorders it in
place: an array ordered `[5, 2]` by sortID comes back `[2, 5]`.  The JSON
document and the fields of each Template instance are indeed untouched —
only the array order mutates. -/
theorem claim5_inplace_sort_demo :
    (managerOverlap.templatesArray.map (fun t => t.sortID)) = [5, 2] ∧
    ((drawTemplateOnTile plainFmt managerOverlap liveTile1000 0 0).mgr.templatesArray.map
        (fun t => t.sortID)) = [2, 5] ∧
    ((drawTemplateOnTile plainFmt managerOverlap liveTile1000 0 0).mgr.templatesArray.map
        (fun t => t.sortID)) ≠ (managerOverlap.templatesArray.map (fun t => t.sortID)) ∧
    (drawTemplateOnTile plainFmt managerOverlap liveTile1000 0 0).mgr.templatesJSON
      = managerOverlap.templatesJSON := by
  refine ⟨by decide, by decide, by decide, by decide⟩

/-! ## Claim C7 — identity rejection on import -/

theorem injectWhoami_templates (cn : String) (json : TemplatesJSON) :
    (injectWhoami cn json).templates = json.templates := by
  unfold injectWhoami
  split <;> rfl

/-- C7, counterexample.  The claim quantifies over every document whose
`whoami` is not in the allow-list; but the injection guard is the JS falsy
test `!json?.whoami`, so a document with `whoami = ""` (present, not in
the allow-list) that carries a `templates` map has the current identity
injected and is **accepted**: no warning is emitted and both the JSON
document and the runtime array change. -/
theorem claim7_counterexample :
    ("" ∉ acceptedWhoami managerWithOrigin.name) ∧
    emptyWhoamiDoc.whoami = some "" ∧
    (importJSON decodeAllRed managerWithOrigin emptyWhoamiDoc).2 = false ∧
    managerWithOrigin.templatesArray.length = 1 ∧
    (importJSON decodeAllRed managerWithOrigin emptyWhoamiDoc).1.templatesArray.length = 2 ∧
    (curTemplates managerWithOrigin).map Prod.fst = ["0 !"] ∧
    ((curTemplates (importJSON decodeAllRed managerWithOrigin emptyWhoamiDoc).1).map
        Prod.fst) = ["0 !", "1 !"] := by
  refine ⟨by decide, rfl, by decide, by decide, by decide, by decide, by decide⟩

/-- C7, amended: a document whose `whoami` is a present, **non-empty**
string outside the fixed allow-list is rejected with a warning and leaves
the manager — `templatesJSON` and `templatesArray` alike — untouched; a
document with a falsy `whoami` (absent or the empty string) that carries a
`templates` map is instead treated as identity-less, gets the current
identity injected, and is accepted. -/
theorem claim7_amended_identity_rejection (dec : DecodeEnv) (mgr : Manager)
    (json : TemplatesJSON) (w : String) (hw : json.whoami = some w)
    (hne : w ≠ "") (hnot : w ∉ acceptedWhoami mgr.name) :
    importJSON dec mgr json = (mgr, true) := by
  have hstay : injectWhoami (stripWhitespace mgr.name) json = json := by
    unfold injectWhoami
    rw [if_neg]
    rintro ⟨h1, _⟩
    rw [hw] at h1
    simp only [jsFalsyStr, decide_eq_true_eq] at h1
    exact hne h1
  have hacc : isAccepted mgr.name (injectWhoami (stripWhitespace mgr.name) json) = false := by
    rw [hstay]
    unfold isAccepted
    rw [hw]
    cases hc : (acceptedWhoami mgr.name).contains w with
    | false => exact hc
    | true => exact absurd (List.mem_of_elem_eq_true hc) hnot
  simp only [importJSON]
  rw [hacc]
  rfl

/-- C7, witness: `whoami = "SomeOtherTool"` (non-empty, unrecognized)
against a manager named "Blue Peanits" holding one template leaves the
state byte-for-byte unchanged and warns. -/
theorem claim7_amended_identity_rejection_witness :
    ({ whoami := some "SomeOtherTool", scriptVersion := some "1.0",
       schemaVersion := some "1.0.0", templates := some [] } : TemplatesJSON).whoami
      = some "SomeOtherTool" ∧
    importJSON decodeAllRed managerWithOrigin
      { whoami := some "SomeOtherTool", scriptVersion := some "1.0",
        schemaVersion := some "1.0.0", templates := some [] }
      = (managerWithOrigin, true) :=
  ⟨rfl, claim7_amended_identity_rejection decodeAllRed managerWithOrigin _
    "SomeOtherTool" rfl (by decide) (by decide)⟩

/-! ## Claim C10 — the templatesShouldBeDrawn gate -/

/-- C10: when `templatesShouldBeDrawn` is false, `drawTemplateOnTile`
returns the input blob itself, emits no status and leaves the manager
unchanged (no sort, no compositing), regardless of the template
collection. -/
theorem claim10_draw_flag_passthrough (fmt : Nat → String) (mgr : Manager)
    (tileBlob : Image) (tx ty : Nat) (h : mgr.templatesShouldBeDrawn = false) :
    drawTemplateOnTile fmt mgr tileBlob tx ty = ⟨tileBlob, [], mgr⟩ := by
  unfold drawTemplateOnTile
  rw [h]
  rfl

/-- C10, witness: a manager with the flag off and two enabled matching
templates still passes the blob through untouched. -/
theorem claim10_draw_flag_passthrough_witness :
    ({ managerOverlap with templatesShouldBeDrawn := false } : Manager).templatesShouldBeDrawn
      = false ∧
    drawTemplateOnTile plainFmt { managerOverlap with templatesShouldBeDrawn := false }
        liveTile1000 0 0
      = ⟨liveTile1000, [], { managerOverlap with templatesShouldBeDrawn := false }⟩ :=
  ⟨rfl, claim10_draw_flag_passthrough plainFmt _ liveTile1000 0 0 rfl⟩

/-! ## Claim C4 — compositing with zero matching templates -/

theorem pixOver_transparent (s : Pixel) : pixOver s transparent = normPix s := by
  unfold pixOver normPix transparent
  by_cases h0 : s.a = 0
  · simp [h0]
  · by_cases h255 : s.a = 255 <;> simp [h0, h255]

theorem mem_jsSortTemplates {t : Template} {l : List Template} :
    t ∈ jsSortTemplates l ↔ t ∈ l :=
  (List.perm_insertionSort keyLe l).mem_iff

theorem pickFragment_eq_none {pre : String} {t : Template}
    (h : hasMatch pre t = false) : pickFragment pre t = none := by
  unfold hasMatch at h
  unfold pickFragment
  rw [List.filter_eq_nil_iff.mpr (List.any_eq_false.mp h)]

/-- C4, counterexample.  The claim says the returned image has the input
image's dimensions; the code always re-encodes a `tileSize · drawMult`
(3000×3000) surface, so a 1000×1000 live tile comes back 3000×3000. -/
theorem claim4_counterexample :
    liveTile1000.width = 1000 ∧
    (drawTemplateOnTile plainFmt freshManager liveTile1000 12 34).blob.width = 3000 ∧
    (drawTemplateOnTile plainFmt freshManager liveTile1000 12 34).blob.width
      ≠ liveTile1000.width := by
  refine ⟨rfl, rfl, by decide⟩

/-- C4, amended: when no enabled template has a fragment matching the
tile, `drawTemplateOnTile` returns a valid image of fixed dimensions
`tileSize·drawMult × tileSize·drawMult` whose content is the input tile
scaled up to that surface with nearest-neighbor sampling and nothing drawn
over it, and the status reports zero templates. -/
theorem claim4_amended_zero_templates (fmt : Nat → String) (mgr : Manager)
    (blob : Image) (tx ty : Nat) (hdraw : mgr.templatesShouldBeDrawn = true)
    (hnone : ∀ t ∈ mgr.templatesArray, t.enabled = true →
      hasMatch (tileCoordsKey tx ty) t = false) :
    (drawTemplateOnTile fmt mgr blob tx ty).statuses = ["Displaying 0 templates."] ∧
    (drawTemplateOnTile fmt mgr blob tx ty).blob.width = tileSize * drawMult ∧
    (drawTemplateOnTile fmt mgr blob tx ty).blob.height = tileSize * drawMult ∧
    ∀ x y, x < tileSize * drawMult → y < tileSize * drawMult →
      (drawTemplateOnTile fmt mgr blob tx ty).blob.data x y
        = normPix (blob.data (x * blob.width / (tileSize * drawMult))
                             (y * blob.height / (tileSize * drawMult))) := by
  have hdrawList :
      ((jsSortTemplates mgr.templatesArray).filter (fun t => t.enabled)).filterMap
        (pickFragment (tileCoordsKey tx ty)) = [] := by
    rw [List.filterMap_eq_nil_iff]
    intro t ht
    have hmem := List.mem_filter.mp ht
    exact pickFragment_eq_none
      (hnone t (mem_jsSortTemplates.mp hmem.1) hmem.2)
  unfold drawTemplateOnTile
  rw [hdraw]
  simp only [if_true, hdrawList, List.length_nil, lt_irrefl, if_false]
  refine ⟨rfl, rfl, rfl, fun x y hx hy => ?_⟩
  show (drawEntries (drawImageScaled (Image.blank (tileSize * drawMult) (tileSize * drawMult))
      blob (tileSize * drawMult) (tileSize * drawMult)) []).data x y = _
  show (drawImageScaled (Image.blank (tileSize * drawMult) (tileSize * drawMult))
      blob (tileSize * drawMult) (tileSize * drawMult)).data x y = _
  unfold drawImageScaled
  simp only [Image.blank]
  rw [if_pos ⟨hx, hy, hx, hy⟩]
  exact pixOver_transparent _

/-- C4, witness for the amended theorem: an empty manager drawing a
1000×1000 tile. -/
theorem claim4_amended_zero_templates_witness :
    freshManager.templatesShouldBeDrawn = true ∧
    (drawTemplateOnTile plainFmt freshManager liveTile1000 12 34).statuses
      = ["Displaying 0 templates."] ∧
    (drawTemplateOnTile plainFmt freshManager liveTile1000 12 34).blob.width
      = tileSize * drawMult ∧
    (drawTemplateOnTile plainFmt freshManager liveTile1000 12 34).blob.data 5 7
      = normPix (liveTile1000.data (5 * liveTile1000.width / (tileSize * drawMult))
                                   (7 * liveTile1000.height / (tileSize * drawMult))) := by
  have h := claim4_amended_zero_templates plainFmt freshManager liveTile1000 12 34 rfl
    (by intro t ht; simp [freshManager] at ht)
  exact ⟨rfl, h.1, h.2.1, h.2.2.2 5 7 (by decide) (by decide)⟩

/-! ## Claim C6 — draw order and visual priority -/

theorem pixOver_opaque (s d : Pixel) (h : s.a = 255) : pixOver s d = s := by
  unfold pixOver
  rw [h]
  simp

theorem drawImageAt_data_hit (dst src : Image) (dx dy : Int) (x y : Nat)
    (h1 : x < dst.width) (h2 : y < dst.height)
    (h3 : dx ≤ (x : Int)) (h4 : (x : Int) < dx + src.width)
    (h5 : dy ≤ (y : Int)) (h6 : (y : Int) < dy + src.height) :
    (drawImageAt dst src dx dy).data x y
      = pixOver (src.data ((x : Int) - dx).toNat ((y : Int) - dy).toNat) (dst.data x y) := by
  unfold drawImageAt
  exact if_pos ⟨h1, h2, h3, h4, h5, h6⟩

theorem hasMatch_true_of_filter_eq {pre : String} {t : Template} {k : String}
    {f : Image} {rest : List (String × Image)}
    (h : t.chunked.filter (fun kv => strStarts kv.1 pre) = (k, f) :: rest) :
    hasMatch pre t = true := by
  unfold hasMatch
  rw [List.any_eq_true]
  have hmem : (k, f) ∈ t.chunked.filter (fun kv => strStarts kv.1 pre) := by
    rw [h]
    exact List.mem_cons_self _ _
  have := List.mem_filter.mp hmem
  exact ⟨(k, f), this.1, this.2⟩

/-- C6: the enabled templates with a fragment matching the tile are drawn
in ascending sortID order (for two such templates the candidate list is
`[lower, higher]`), and at any overlap point where the higher-sortID
template's fragment pixel is fully opaque, that pixel determines the
output. -/
theorem claim6_priority (fmt : Nat → String) (mgr : Manager) (blob : Image)
    (tx ty : Nat) (a b : Template) (ka kb : String) (fa fb : Image)
    (pxa pya pxb pyb u v : Nat)
    (horder : mgr.templatesArray = [a, b] ∨ mgr.templatesArray = [b, a])
    (hdraw : mgr.templatesShouldBeDrawn = true)
    (hba : b.sortID < a.sortID)
    (hae : a.enabled = true) (hbe : b.enabled = true)
    (hfa : a.chunked.filter (fun kv => strStarts kv.1 (tileCoordsKey tx ty)) = [(ka, fa)])
    (hfb : b.chunked.filter (fun kv => strStarts kv.1 (tileCoordsKey tx ty)) = [(kb, fb)])
    (hpxa : ((jsSplit ',' ka).get? 2).bind jsNumberInt = some ((pxa : Nat) : Int))
    (hpya : ((jsSplit ',' ka).get? 3).bind jsNumberInt = some ((pya : Nat) : Int))
    (hpxb : ((jsSplit ',' kb).get? 2).bind jsNumberInt = some ((pxb : Nat) : Int))
    (hpyb : ((jsSplit ',' kb).get? 3).bind jsNumberInt = some ((pyb : Nat) : Int))
    (hu : u < fa.width) (hv : v < fa.height)
    (hX : 3 * pxa + u < tileSize * drawMult) (hY : 3 * pya + v < tileSize * drawMult)
    (hbx1 : 3 * pxb ≤ 3 * pxa + u) (hbx2 : 3 * pxa + u < 3 * pxb + fb.width)
    (hby1 : 3 * pyb ≤ 3 * pya + v) (hby2 : 3 * pya + v < 3 * pyb + fb.height)
    (hfull : (fa.data u v).a = 255) :
    candidateTemplates mgr (tileCoordsKey tx ty) = [b, a] ∧
    (drawTemplateOnTile fmt mgr blob tx ty).blob.data (3 * pxa + u) (3 * pya + v)
      = fa.data u v := by
  have hnotle : ¬ keyLe a b := not_le.mpr hba
  have hle : keyLe b a := le_of_lt hba
  have hsort : jsSortTemplates mgr.templatesArray = [b, a] := by
    rcases horder with h | h <;>
      rw [h] <;>
      simp [jsSortTemplates, List.insertionSort, List.orderedInsert, hnotle, hle]
  have hma : hasMatch (tileCoordsKey tx ty) a = true := hasMatch_true_of_filter_eq hfa
  have hmb : hasMatch (tileCoordsKey tx ty) b = true := hasMatch_true_of_filter_eq hfb
  have hpa : pickFragment (tileCoordsKey tx ty) a
      = some ⟨fa, (jsSplit ',' ka).get? 2, (jsSplit ',' ka).get? 3⟩ := by
    unfold pickFragment
    rw [hfa]
  have hpb : pickFragment (tileCoordsKey tx ty) b
      = some ⟨fb, (jsSplit ',' kb).get? 2, (jsSplit ',' kb).get? 3⟩ := by
    unfold pickFragment
    rw [hfb]
  constructor
  · unfold candidateTemplates
    rw [hsort]
    simp [hma, hmb, hae, hbe]
  · have hdmul : ((drawMult : Nat) : Int) = 3 := by decide
    unfold drawTemplateOnTile
    rw [hdraw]
    simp only [if_true, hsort]
    have hfilter : ([b, a].filter (fun t => t.enabled)) = [b, a] := by
      simp [hae, hbe]
    rw [hfilter]
    show (drawEntries _ (List.filterMap (pickFragment (tileCoordsKey tx ty)) [b, a])).data _ _ = _
    rw [List.filterMap_cons, hpb]
    rw [List.filterMap_cons, hpa]
    simp only [List.filterMap_nil]
    unfold drawEntries
    simp only [List.foldl_cons, List.foldl_nil]
    rw [hpxb, hpyb, hpxa, hpya]
    show (drawImageAt
        (drawImageAt
          (drawImageScaled (Image.blank (tileSize * drawMult) (tileSize * drawMult)) blob
            (tileSize * drawMult) (tileSize * drawMult))
          fb ((pxb : Int) * (drawMult : Int)) ((pyb : Int) * (drawMult : Int)))
        fa ((pxa : Int) * (drawMult : Int)) ((pya : Int) * (drawMult : Int))).data
        (3 * pxa + u) (3 * pya + v) = fa.data u v
    have h3 : (pxa : Int) * (drawMult : Int) ≤ ((3 * pxa + u : Nat) : Int) := by
      rw [hdmul]
      push_cast
      omega
    have h4 : ((3 * pxa + u : Nat) : Int) < (pxa : Int) * (drawMult : Int) + fa.width := by
      rw [hdmul]
      push_cast
      omega
    have h5 : (pya : Int) * (drawMult : Int) ≤ ((3 * pya + v : Nat) : Int) := by
      rw [hdmul]
      push_cast
      omega
    have h6 : ((3 * pya + v : Nat) : Int) < (pya : Int) * (drawMult : Int) + fa.height := by
      rw [hdmul]
      push_cast
      omega
    rw [drawImageAt_data_hit _ fa _ _ _ _ hX hY h3 h4 h5 h6]
    have hxu : (((3 * pxa + u : Nat) : Int) - (pxa : Int) * ((drawMult : Nat) : Int)).toNat = u := by
      rw [hdmul]
      push_cast
      omega
    have hyv : (((3 * pya + v : Nat) : Int) - (pya : Int) * ((drawMult : Nat) : Int)).toNat = v := by
      rw [hdmul]
      push_cast
      omega
    rw [hxu, hyv]
    exact pixOver_opaque _ _ hfull

/-- C6, witness: sortID 5 (red) and sortID 2 (blue) overlap at tile (0,0),
offset (2,3); the candidates are drawn `[2, 5]` and the red (higher
sortID) pixel wins at the overlap. -/
theorem claim6_priority_witness :
    candidateTemplates managerOverlap (tileCoordsKey 0 0) = [templateSort2, templateSort5] ∧
    (drawTemplateOnTile plainFmt managerOverlap liveTile1000 0 0).blob.data 6 9
      = (⟨255, 0, 0, 255⟩ : Pixel) := by
  have h := claim6_priority plainFmt managerOverlap liveTile1000 0 0
    templateSort5 templateSort2 "0000,0000,2,3" "0000,0000,2,3" imgRed imgBlue
    2 3 2 3 0 0
    (Or.inl rfl) rfl (by decide) rfl rfl rfl rfl rfl rfl rfl rfl
    (by decide) (by decide) (by decide) (by decide)
    (by decide) (by decide) (by decide) (by decide) rfl
  exact ⟨h.1, h.2⟩

/-! ## Claim C8 — pixel-count resolution during import -/

theorem computePixelCountFromTiles_ne_nil {ts : List (String × Image)} {e : String}
    (h : computePixelCountFromTiles ts = .error e) : ts.length ≠ 0 := by
  intro hlen
  rw [List.length_eq_zero] at hlen
  subst hlen
  simp [computePixelCountFromTiles] at h

theorem resolvePixelCount_trust {ts : List (String × Image)} {entry : TemplateEntry}
    {n : Int} (hpc : entry.pixelCount = some n) (hn : 0 ≤ n) :
    resolvePixelCount ts entry = (n.toNat, entry) := by
  unfold resolvePixelCount
  rw [hpc]
  simp [hn]

theorem resolvePixelCount_recompute {ts : List (String × Image)} {entry : TemplateEntry}
    {m : Nat} (hneg : entry.pixelCount = none ∨ ∃ n, entry.pixelCount = some n ∧ n < 0)
    (hcc : computePixelCountFromTiles ts = .ok m) :
    resolvePixelCount ts entry = (m, { entry with pixelCount := some (m : Int) }) := by
  unfold resolvePixelCount
  rcases hneg with hpc | ⟨n, hpc, hn⟩
  · rw [hpc, hcc]
  · rw [hpc]
    dsimp only
    rw [if_neg (not_le.mpr hn), hcc]

theorem resolvePixelCount_fallback {ts : List (String × Image)} {entry : TemplateEntry}
    {e : String} (hneg : entry.pixelCount = none ∨ ∃ n, entry.pixelCount = some n ∧ n < 0)
    (hcc : computePixelCountFromTiles ts = .error e) :
    resolvePixelCount ts entry
      = (ts.length * 500, { entry with pixelCount := some ((ts.length * 500 : Nat) : Int) }) := by
  have hlen : ts.length ≠ 0 := computePixelCountFromTiles_ne_nil hcc
  unfold resolvePixelCount
  rcases hneg with hpc | ⟨n, hpc, hn⟩
  · rw [hpc, hcc]
    simp [hlen]
  · rw [hpc]
    dsimp only
    rw [if_neg (not_le.mpr hn), hcc]
    simp [hlen]

theorem parseOne_ok (dec : DecodeEnv) (arrLen : Nat) (key : String)
    (entry : TemplateEntry) (ts : List (String × Image))
    (hdec : decodeTiles dec (entry.tiles.getD []) = .ok ts) :
    parseOne dec arrLen key entry = .ok
      ({ displayName := parsedDisplayName key entry
         sortID := sortIDFallback (parsedSortID key) arrLen
         authorID := parsedAuthorID key
         coords := none
         enabled := entry.enabled.getD true
         chunked := ts
         pixelCount := (resolvePixelCount ts entry).1 },
       (resolvePixelCount ts entry).2) := by
  unfold parseOne
  rw [hdec]

/-- C8: for an entry whose tiles all decode, the parse step always
succeeds, and resolves the pixel count as the claim states: a non-negative
numeric persisted `pixelCount` is used verbatim (no writeback); otherwise
the reconstructor\'s result is used and written back into the document
entry; and if the reconstruction throws, the count falls back to
`fragmentCount × 500` (also written back) without failing the import. -/
theorem claim8_pixelcount_resolution (dec : DecodeEnv) (arrLen : Nat) (key : String)
    (entry : TemplateEntry) (ts : List (String × Image))
    (hdec : decodeTiles dec (entry.tiles.getD []) = .ok ts) :
    (∃ t e', parseOne dec arrLen key entry = .ok (t, e')) ∧
    (∀ n, entry.pixelCount = some n → 0 ≤ n →
      ∃ t, parseOne dec arrLen key entry = .ok (t, entry) ∧ t.pixelCount = n.toNat) ∧
    ((entry.pixelCount = none ∨ ∃ n, entry.pixelCount = some n ∧ n < 0) →
      (∀ m, computePixelCountFromTiles ts = .ok m →
        ∃ t, parseOne dec arrLen key entry
            = .ok (t, { entry with pixelCount := some (m : Int) }) ∧
          t.pixelCount = m) ∧
      (∀ e, computePixelCountFromTiles ts = .error e →
        ∃ t, parseOne dec arrLen key entry
            = .ok (t, { entry with pixelCount := some ((ts.length * 500 : Nat) : Int) }) ∧
          t.pixelCount = ts.length * 500)) := by
  refine ⟨⟨_, _, parseOne_ok dec arrLen key entry ts hdec⟩, ?_, ?_⟩
  · intro n hpc hn
    refine ⟨{ displayName := parsedDisplayName key entry
              sortID := sortIDFallback (parsedSortID key) arrLen
              authorID := parsedAuthorID key
              coords := none
              enabled := entry.enabled.getD true
              chunked := ts
              pixelCount := n.toNat }, ?_, rfl⟩
    rw [parseOne_ok dec arrLen key entry ts hdec, resolvePixelCount_trust hpc hn]
  · intro hneg
    constructor
    · intro m hcc
      refine ⟨{ displayName := parsedDisplayName key entry
                sortID := sortIDFallback (parsedSortID key) arrLen
                authorID := parsedAuthorID key
                coords := none
                enabled := entry.enabled.getD true
                chunked := ts
                pixelCount := m }, ?_, rfl⟩
      rw [parseOne_ok dec arrLen key entry ts hdec, resolvePixelCount_recompute hneg hcc]
    · intro e hcc
      refine ⟨{ displayName := parsedDisplayName key entry
                sortID := sortIDFallback (parsedSortID key) arrLen
                authorID := parsedAuthorID key
                coords := none
                enabled := entry.enabled.getD true
                chunked := ts
                pixelCount := ts.length * 500 }, ?_, rfl⟩
      rw [parseOne_ok dec arrLen key entry ts hdec, resolvePixelCount_fallback hneg hcc]

/-- C8, witness: an entry without a persisted count, whose single fragment
decodes to the shredded bitmap, gets the reconstructed count 2 written
back, and the parse step succeeds. -/
theorem claim8_pixelcount_resolution_witness :
    decodeTiles (fun _ => some imgShred)
        (({ name := some "T", coords := none, enabled := some true,
            tiles := some [("0000,0000,0,0", "AAAA")],
            pixelCount := none } : TemplateEntry).tiles.getD [])
      = .ok [("0000,0000,0,0", imgShred)] ∧
    ∃ t, parseOne (fun _ => some imgShred) 0 "0 !"
        { name := some "T", coords := none, enabled := some true,
          tiles := some [("0000,0000,0,0", "AAAA")], pixelCount := none }
        = .ok (t, { name := some "T", coords := none, enabled := some true,
                    tiles := some [("0000,0000,0,0", "AAAA")],
                    pixelCount := some ((2 : Nat) : Int) }) ∧
      t.pixelCount = 2 := by
  have h := claim8_pixelcount_resolution (fun _ => some imgShred) 0 "0 !"
    { name := some "T", coords := none, enabled := some true,
      tiles := some [("0000,0000,0,0", "AAAA")], pixelCount := none }
    [("0000,0000,0,0", imgShred)] rfl
  exact ⟨rfl, (h.2.2 (Or.inl rfl)).1 2 rfl⟩

/-! ## Claim C9 — the pixel-count reconstructor counts center cells -/

theorem countRowFuel_spec (img : Image) (y : Nat) :
    ∀ (f x : Nat), img.width ≤ x + 3 * f →
    countRowFuel img y f x
      = ((Finset.range img.width).filter
          (fun t => x ≤ t ∧ t % 3 = x % 3 ∧ 0 < (img.data t y).a)).card := by
  intro f
  induction f with
  | zero =>
      intro x hx
      have hempty : ((Finset.range img.width).filter
          (fun t => x ≤ t ∧ t % 3 = x % 3 ∧ 0 < (img.data t y).a)) = ∅ := by
        apply Finset.filter_eq_empty_iff.mpr
        intro t ht
        rw [Finset.mem_range] at ht
        rintro ⟨hxt, _, _⟩
        omega
      rw [hempty]
      rfl
  | succ f ih =>
      intro x hx
      have hstep : countRowFuel img y (f + 1) x
          = if x < img.width then
              (if 0 < (img.data x y).a then 1 else 0) + countRowFuel img y f (x + 3)
            else 0 := rfl
      by_cases hxw : x < img.width
      · rw [hstep, if_pos hxw]
        rw [ih (x + 3) (by omega)]
        by_cases ha : 0 < (img.data x y).a
        · rw [if_pos ha]
          have hset : ((Finset.range img.width).filter
                (fun t => x ≤ t ∧ t % 3 = x % 3 ∧ 0 < (img.data t y).a))
              = insert x ((Finset.range img.width).filter
                (fun t => x + 3 ≤ t ∧ t % 3 = (x + 3) % 3 ∧ 0 < (img.data t y).a)) := by
            ext t
            simp only [Finset.mem_filter, Finset.mem_range, Finset.mem_insert]
            constructor
            · rintro ⟨htw, hxt, hm, hal⟩
              by_cases hteq : t = x
              · exact Or.inl hteq
              · exact Or.inr ⟨htw, by omega, by omega, hal⟩
            · rintro (hteq | ⟨htw, hxt, hm, hal⟩)
              · subst hteq
                exact ⟨hxw, le_refl _, rfl, ha⟩
              · exact ⟨htw, by omega, by omega, hal⟩
          rw [hset, Finset.card_insert_of_not_mem ?_]
          · omega
          · simp only [Finset.mem_filter, Finset.mem_range]
            rintro ⟨_, hcon, _, _⟩
            omega
        · rw [if_neg ha]
          have hset : ((Finset.range img.width).filter
                (fun t => x ≤ t ∧ t % 3 = x % 3 ∧ 0 < (img.data t y).a))
              = ((Finset.range img.width).filter
                (fun t => x + 3 ≤ t ∧ t % 3 = (x + 3) % 3 ∧ 0 < (img.data t y).a)) := by
            ext t
            simp only [Finset.mem_filter, Finset.mem_range]
            constructor
            · rintro ⟨htw, hxt, hm, hal⟩
              have hne : t ≠ x := fun h => ha (h ▸ hal)
              exact ⟨htw, by omega, by omega, hal⟩
            · rintro ⟨htw, hxt, hm, hal⟩
              exact ⟨htw, by omega, by omega, hal⟩
          rw [hset]
          omega
      · rw [hstep, if_neg hxw]
        have hempty : ((Finset.range img.width).filter
            (fun t => x ≤ t ∧ t % 3 = x % 3 ∧ 0 < (img.data t y).a)) = ∅ := by
          apply Finset.filter_eq_empty_iff.mpr
          intro t ht
          rw [Finset.mem_range] at ht
          rintro ⟨hxt, _, _⟩
          omega
        rw [hempty]
        rfl

theorem countRowsFuel_spec (img : Image) :
    ∀ (f y : Nat), img.height ≤ y + 3 * f →
    countRowsFuel img f y
      = ∑ r ∈ ((Finset.range img.height).filter (fun r => y ≤ r ∧ r % 3 = y % 3)),
          ((Finset.range img.width).filter
            (fun t => t % 3 = 1 ∧ 0 < (img.data t r).a)).card := by
  intro f
  induction f with
  | zero =>
      intro y hy
      have hempty : ((Finset.range img.height).filter
          (fun r => y ≤ r ∧ r % 3 = y % 3)) = ∅ := by
        apply Finset.filter_eq_empty_iff.mpr
        intro r hr
        rw [Finset.mem_range] at hr
        rintro ⟨hyr, _⟩
        omega
      rw [hempty]
      rfl
  | succ f ih =>
      intro y hy
      have hstep : countRowsFuel img (f + 1) y
          = if y < img.height then
              countRowFuel img y img.width 1 + countRowsFuel img f (y + 3)
            else 0 := rfl
      by_cases hyh : y < img.height
      · rw [hstep, if_pos hyh]
        rw [ih (y + 3) (by omega)]
        rw [countRowFuel_spec img y img.width 1 (by omega)]
        have hcongr : ((Finset.range img.width).filter
              (fun t => 1 ≤ t ∧ t % 3 = 1 % 3 ∧ 0 < (img.data t y).a))
            = ((Finset.range img.width).filter
              (fun t => t % 3 = 1 ∧ 0 < (img.data t y).a)) := by
          ext t
          simp only [Finset.mem_filter, Finset.mem_range]
          constructor
          · rintro ⟨htw, h1, hm, hal⟩
            exact ⟨htw, by omega, hal⟩
          · rintro ⟨htw, hm, hal⟩
            exact ⟨htw, by omega, by omega, hal⟩
        rw [hcongr]
        have hrows : ((Finset.range img.height).filter
              (fun r => y ≤ r ∧ r % 3 = y % 3))
            = insert y ((Finset.range img.height).filter
              (fun r => y + 3 ≤ r ∧ r % 3 = (y + 3) % 3)) := by
          ext r
          simp only [Finset.mem_filter, Finset.mem_range, Finset.mem_insert]
          constructor
          · rintro ⟨hrh, hyr, hm⟩
            by_cases hr : r = y
            · exact Or.inl hr
            · exact Or.inr ⟨hrh, by omega, by omega⟩
          · rintro (hr | ⟨hrh, hyr, hm⟩)
            · subst hr
              exact ⟨hyh, le_refl _, rfl⟩
            · exact ⟨hrh, by omega, by omega⟩
        rw [hrows, Finset.sum_insert ?_]
        · simp only [Finset.mem_filter, Finset.mem_range]
          rintro ⟨_, hcon, _⟩
          omega
      · rw [hstep, if_neg hyh]
        have hempty : ((Finset.range img.height).filter
            (fun r => y ≤ r ∧ r % 3 = y % 3)) = ∅ := by
          apply Finset.filter_eq_empty_iff.mpr
          intro r hr
          rw [Finset.mem_range] at hr
          rintro ⟨hyr, _⟩
          omega
        rw [hempty]
        rfl

theorem fragmentCenterCells_eq_sum (img : Image) :
    fragmentCenterCells img
      = ∑ r ∈ ((Finset.range img.height).filter (fun r => r % 3 = 1)),
          ((Finset.range img.width).filter
            (fun t => t % 3 = 1 ∧ 0 < (img.data t r).a)).card := by
  unfold fragmentCenterCells
  rw [Finset.card_eq_sum_card_fiberwise
    (show ∀ p ∈ (Finset.range img.width ×ˢ Finset.range img.height).filter
        (fun p => p.1 % 3 = 1 ∧ p.2 % 3 = 1 ∧ 0 < (img.data p.1 p.2).a),
      Prod.snd p ∈ (Finset.range img.height).filter (fun r => r % 3 = 1) from by
        intro p hp
        simp only [Finset.mem_filter, Finset.mem_product, Finset.mem_range] at hp
        simp only [Finset.mem_filter, Finset.mem_range]
        exact ⟨hp.1.2, hp.2.2.1⟩)]
  apply Finset.sum_congr rfl
  intro r hr
  simp only [Finset.mem_filter, Finset.mem_range] at hr
  have hfiber : ((Finset.range img.width ×ˢ Finset.range img.height).filter
        (fun p => p.1 % 3 = 1 ∧ p.2 % 3 = 1 ∧ 0 < (img.data p.1 p.2).a)).filter
        (fun p => Prod.snd p = r)
      = ((Finset.range img.width).filter
          (fun t => t % 3 = 1 ∧ 0 < (img.data t r).a)).map
        ⟨fun x => (x, r), fun a b h => congrArg Prod.fst h⟩ := by
    ext p
    rcases p with ⟨a, b⟩
    simp only [Finset.mem_filter, Finset.mem_product, Finset.mem_range, Finset.mem_map,
      Function.Embedding.coeFn_mk]
    constructor
    · rintro ⟨⟨⟨haw, hbh⟩, hm1, hm2, hal⟩, hbr⟩
      subst hbr
      exact ⟨a, ⟨haw, hm1, hal⟩, rfl⟩
    · rintro ⟨x, ⟨hxw, hx1, hal⟩, heq⟩
      injection heq with h1 h2
      subst h1
      subst h2
      exact ⟨⟨⟨hxw, hr.1⟩, hx1, hr.2, hal⟩, rfl⟩
  rw [hfiber, Finset.card_map]

theorem centerCount_eq (img : Image) : centerCount img = fragmentCenterCells img := by
  unfold centerCount
  rw [countRowsFuel_spec img img.height 1 (by omega)]
  rw [fragmentCenterCells_eq_sum]
  apply Finset.sum_congr
  · ext r
    simp only [Finset.mem_filter, Finset.mem_range]
    constructor
    · rintro ⟨hrh, h1, hm⟩
      exact ⟨hrh, by omega⟩
    · rintro ⟨hrh, hm⟩
      exact ⟨hrh, by omega, by omega⟩
  · intro r _
    rfl

/-- C9: on any fragment map whose bitmaps have positive dimensions (as
every real `ImageBitmap` does), the Pixel-Count Reconstructor returns
exactly the number of cells, summed over all fragments, whose x and y
indices are both congruent to 1 modulo 3 and whose alpha channel is
positive. -/
theorem claim9_reconstructor_count (tiles : List (String × Image))
    (hpos : ∀ kv ∈ tiles, 0 < kv.2.width ∧ 0 < kv.2.height) :
    computePixelCountFromTiles tiles
      = .ok ((tiles.map (fun kv => fragmentCenterCells kv.2)).sum) := by
  induction tiles with
  | nil => rfl
  | cons kv rest ih =>
      have hk := hpos kv (List.mem_cons_self kv rest)
      have hne : ¬ (kv.2.width = 0 ∨ kv.2.height = 0) := by omega
      unfold computePixelCountFromTiles
      rw [if_neg hne, ih (fun x hx => hpos x (List.mem_cons_of_mem kv hx))]
      rw [centerCount_eq]
      simp

/-- C9, witness: the shredded 6×3 bitmap has exactly the two opaque center
cells (1,1) and (4,1). -/
theorem claim9_reconstructor_count_witness :
    (∀ kv ∈ [("k", imgShred)], 0 < kv.2.width ∧ 0 < kv.2.height) ∧
    computePixelCountFromTiles [("k", imgShred)]
      = .ok (([("k", imgShred)].map (fun kv => fragmentCenterCells kv.2)).sum) ∧
    ([("k", imgShred)].map (fun kv => fragmentCenterCells kv.2)).sum = 2 :=
  ⟨by decide, claim9_reconstructor_count [("k", imgShred)] (by decide), by decide⟩

/-! ## Claim C3 — import merge and idempotence -/

theorem lookupEntry_isSome_of_mem {α : Type} (k : String) :
    ∀ (l : List (String × α)), k ∈ l.map Prod.fst → (lookupEntry k l).isSome = true := by
  intro l
  induction l with
  | nil => intro h; simp at h
  | cons kv rest ih =>
      intro h
      rcases kv with ⟨k', v⟩
      unfold lookupEntry
      by_cases heq : k' = k
      · rw [if_pos heq]
        rfl
      · rw [if_neg heq]
        apply ih
        rw [List.map_cons, List.mem_cons] at h
        rcases h with h | h
        · exact absurd h.symm heq
        · exact h

theorem lookupEntry_isNone_false {α : Type} {k : String} {l : List (String × α)}
    (h : k ∈ l.map Prod.fst) : (lookupEntry k l).isNone = false := by
  have hs := lookupEntry_isSome_of_mem k l h
  cases hlook : lookupEntry k l with
  | none => rw [hlook] at hs; simp at hs
  | some v => rfl

theorem lookupEntry_ne_none {α : Type} {k : String} {l : List (String × α)}
    (h : k ∈ l.map Prod.fst) : lookupEntry k l ≠ none := by
  have hs := lookupEntry_isSome_of_mem k l h
  intro hcon
  rw [hcon] at hs
  simp at hs

theorem map_eq_self_of {α : Type} {f : α → α} :
    ∀ {l : List α}, (∀ x ∈ l, f x = x) → l.map f = l := by
  intro l
  induction l with
  | nil => intro _; rfl
  | cons x xs ih =>
      intro h
      rw [List.map_cons, h x (List.mem_cons_self x xs),
        ih (fun y hy => h y (List.mem_cons_of_mem x hy))]

theorem parseLoop_keys (dec : DecodeEnv) :
    ∀ (L : List (String × TemplateEntry)) (arr : List Template),
    ((parseLoop dec arr L).2.1).map Prod.fst = L.map Prod.fst := by
  intro L
  induction L with
  | nil => intro arr; rfl
  | cons kv rest ih =>
      intro arr
      rcases kv with ⟨k, e⟩
      unfold parseLoop
      cases hp : parseOne dec arr.length k e with
      | error err => rfl
      | ok te =>
          rcases te with ⟨t, e'⟩
          dsimp only
          rcases hr : parseLoop dec (arr ++ [t]) rest with ⟨a2, r2, o2⟩
          show k :: r2.map Prod.fst = k :: rest.map Prod.fst
          have hih := ih (arr ++ [t])
          rw [hr] at hih
          have hih2 : r2.map Prod.fst = rest.map Prod.fst := hih
          rw [hih2]

theorem parseLoop_length (dec : DecodeEnv) :
    ∀ (L : List (String × TemplateEntry)) (arr : List Template),
    (∀ kv ∈ L, ∃ ts, decodeTiles dec (kv.2.tiles.getD []) = .ok ts) →
    (parseLoop dec arr L).1.length = arr.length + L.length := by
  intro L
  induction L with
  | nil => intro arr _; rfl
  | cons kv rest ih =>
      intro arr h
      rcases kv with ⟨k, e⟩
      obtain ⟨ts, hts⟩ := h (k, e) (List.mem_cons_self _ _)
      unfold parseLoop
      cases hp : parseOne dec arr.length k e with
      | error err =>
          rw [parseOne_ok dec arr.length k e ts hts] at hp
          cases hp
      | ok te =>
          rcases te with ⟨t, e'⟩
          dsimp only
          rcases hr : parseLoop dec (arr ++ [t]) rest with ⟨a2, r2, o2⟩
          show a2.length = arr.length + (rest.length + 1)
          have hih := ih (arr ++ [t]) (fun x hx => h x (List.mem_cons_of_mem _ hx))
          rw [hr] at hih
          have hih2 : a2.length = (arr ++ [t]).length + rest.length := hih
          rw [List.length_append] at hih2
          simp only [List.length_cons, List.length_nil] at hih2
          omega

theorem importJSON_empty_accepted (dec : DecodeEnv) (mgr : Manager) (D : TemplatesJSON)
    (a1 : List Template) (u1 : List (String × TemplateEntry)) (o1 : Bool)
    (hJ : mgr.templatesJSON = none)
    (hacc : isAccepted mgr.name (injectWhoami (stripWhitespace mgr.name) D) = true)
    (hp : parseLoop dec mgr.templatesArray (D.templates.getD []) = (a1, u1, o1)) :
    importJSON dec mgr D
      = ({ mgr with
            templatesJSON := some { injectWhoami (stripWhitespace mgr.name) D with
              templates := D.templates.map (fun _ => u1) }
            templatesArray := a1 }, false) := by
  simp only [importJSON]
  rw [if_pos hacc, hJ]
  dsimp only
  rw [injectWhoami_templates, hp]

theorem importJSON_merge_accepted (dec : DecodeEnv) (mgr : Manager) (D cur : TemplatesJSON)
    (a2 : List Template) (u2 : List (String × TemplateEntry)) (o2 : Bool)
    (hJ : mgr.templatesJSON = some cur)
    (hacc : isAccepted mgr.name (injectWhoami (stripWhitespace mgr.name) D) = true)
    (hp : parseLoop dec mgr.templatesArray (D.templates.getD []) = (a2, u2, o2)) :
    importJSON dec mgr D
      = ({ mgr with
            templatesJSON := some { cur with templates := some (
              (((cur.templates.getD []) ++
                (D.templates.getD []).filter
                  (fun kv => lookupEntry kv.1 (cur.templates.getD []) = none)).map
                (fun kv =>
                  if (lookupEntry kv.1 (cur.templates.getD [])).isNone then
                    match lookupEntry kv.1 u2 with
                    | some e' => (kv.1, e')
                    | none => kv
                  else kv))) }
            templatesArray := a2 }, false) := by
  simp only [importJSON]
  rw [if_pos hacc, hJ]
  dsimp only
  rw [injectWhoami_templates, hp]

/-- C3, amended: importing an accepted document twice into an empty
manager leaves the JSON document identical after the second import (the
merge copies nothing: every composite key is already present, first-wins),
but the second import is **not** a no-op on the runtime state — the parser
runs again and appends one duplicate Template instance per entry, so the
`templatesArray` doubles. -/
theorem claim3_amended_import_twice (dec : DecodeEnv) (mgr : Manager) (D : TemplatesJSON)
    (L : List (String × TemplateEntry)) (w : String)
    (hJ : mgr.templatesJSON = none) (hA : mgr.templatesArray = [])
    (hw : D.whoami = some w) (hacc : w ∈ acceptedWhoami mgr.name)
    (hT : D.templates = some L)
    (hdec : ∀ kv ∈ L, ∃ ts, decodeTiles dec (kv.2.tiles.getD []) = .ok ts) :
    (importJSON dec (importJSON dec mgr D).1 D).1.templatesJSON
      = (importJSON dec mgr D).1.templatesJSON ∧
    (importJSON dec mgr D).1.templatesArray.length = L.length ∧
    (importJSON dec (importJSON dec mgr D).1 D).1.templatesArray.length = 2 * L.length := by
  have hdec' : ∀ kv ∈ D.templates.getD [], ∃ ts, decodeTiles dec (kv.2.tiles.getD []) = .ok ts := by
    rw [hT]
    exact hdec
  have hacc' : isAccepted mgr.name (injectWhoami (stripWhitespace mgr.name) D) = true := by
    by_cases hw0 : w = ""
    · have hfire : injectWhoami (stripWhitespace mgr.name) D
          = { D with whoami := some (stripWhitespace mgr.name) } := by
        unfold injectWhoami
        rw [if_pos]
        constructor
        · rw [hw, hw0]
          decide
        · rw [hT]
          exact Option.some_ne_none L
      rw [hfire]
      show (acceptedWhoami mgr.name).contains (stripWhitespace mgr.name) = true
      apply List.elem_eq_true_of_mem
      unfold acceptedWhoami
      simp
    · have hstay : injectWhoami (stripWhitespace mgr.name) D = D := by
        unfold injectWhoami
        rw [if_neg]
        rintro ⟨h1, _⟩
        rw [hw] at h1
        simp only [jsFalsyStr, decide_eq_true_eq] at h1
        exact hw0 h1
      rw [hstay]
      unfold isAccepted
      rw [hw]
      exact List.elem_eq_true_of_mem hacc
  rcases hp1 : parseLoop dec mgr.templatesArray (D.templates.getD []) with ⟨a1, u1, o1⟩
  have h1 := importJSON_empty_accepted dec mgr D a1 u1 o1 hJ hacc' hp1
  have hmapT : D.templates.map (fun _ => u1) = some u1 := by
    rw [hT]
    rfl
  have hDT : D.templates.getD [] = L := by
    rw [hT]
    rfl
  have hkeys : u1.map Prod.fst = L.map Prod.fst := by
    have hk := parseLoop_keys dec (D.templates.getD []) mgr.templatesArray
    rw [hp1] at hk
    have hk2 : u1.map Prod.fst = (D.templates.getD []).map Prod.fst := hk
    rw [hDT] at hk2
    exact hk2
  have hlen1 : a1.length = L.length := by
    have hl := parseLoop_length dec (D.templates.getD []) mgr.templatesArray hdec'
    rw [hp1] at hl
    have hl2 : a1.length = mgr.templatesArray.length + (D.templates.getD []).length := hl
    rw [hA, hDT] at hl2
    simpa using hl2
  rw [h1]
  dsimp only
  rw [hmapT]
  rcases hp2 : parseLoop dec a1 (D.templates.getD []) with ⟨a2, u2, o2⟩
  have hlen2 : a2.length = a1.length + L.length := by
    have hl := parseLoop_length dec (D.templates.getD []) a1 hdec'
    rw [hp2] at hl
    have hl2 : a2.length = a1.length + (D.templates.getD []).length := hl
    rw [hDT] at hl2
    exact hl2
  have h2 := importJSON_merge_accepted dec
    { mgr with
        templatesJSON := some { injectWhoami (stripWhitespace mgr.name) D with
          templates := some u1 }
        templatesArray := a1 }
    D { injectWhoami (stripWhitespace mgr.name) D with templates := some u1 }
    a2 u2 o2 rfl hacc' hp2
  rw [h2]
  dsimp only
  simp only [Option.getD_some]
  have hfresh : (D.templates.getD []).filter
      (fun kv => lookupEntry kv.1 u1 = none) = [] := by
    rw [hDT, List.filter_eq_nil_iff]
    intro kv hkv
    simp only [decide_eq_true_eq]
    apply lookupEntry_ne_none
    rw [hkeys]
    exact List.mem_map_of_mem Prod.fst hkv
  rw [hfresh, List.append_nil]
  have hmapid : u1.map
      (fun kv =>
        if (lookupEntry kv.1 u1).isNone then
          match lookupEntry kv.1 u2 with
          | some e' => (kv.1, e')
          | none => kv
        else kv) = u1 := by
    apply map_eq_self_of
    intro kv hkv
    have hmem : kv.1 ∈ u1.map Prod.fst := List.mem_map_of_mem Prod.fst hkv
    rw [if_neg (by simp [lookupEntry_isNone_false hmem])]
  rw [hmapid]
  refine ⟨rfl, hlen1, by omega⟩

/-- C3, counterexample.  The claim says the second import of the same
document into an (initially empty) manager adds nothing to either the JSON
document or the runtime template array; in fact the JSON document is
unchanged but the runtime array doubles: one import yields 1 instance,
two imports yield 2. -/
theorem claim3_counterexample :
    (importJSON decodeAllRed freshManager importDocOne).1.templatesArray.length = 1 ∧
    (importJSON decodeAllRed (importJSON decodeAllRed freshManager importDocOne).1
        importDocOne).1.templatesJSON
      = (importJSON decodeAllRed freshManager importDocOne).1.templatesJSON ∧
    (importJSON decodeAllRed (importJSON decodeAllRed freshManager importDocOne).1
        importDocOne).1.templatesArray.length = 2 := by
  refine ⟨by decide, by decide, by decide⟩

/-- C3, witness for the amended theorem at the concrete one-template
document. -/
theorem claim3_amended_import_twice_witness :
    ((importJSON decodeAllRed (importJSON decodeAllRed freshManager importDocOne).1
        importDocOne).1.templatesJSON
      = (importJSON decodeAllRed freshManager importDocOne).1.templatesJSON) ∧
    (importJSON decodeAllRed freshManager importDocOne).1.templatesArray.length
      = ([("0 !", ({ name := some "T", coords := none, enabled := some true,
                     tiles := some [("0000,0000,0,0", "AAAA")],
                     pixelCount := some 4 } : TemplateEntry))]).length ∧
    (importJSON decodeAllRed (importJSON decodeAllRed freshManager importDocOne).1
        importDocOne).1.templatesArray.length
      = 2 * ([("0 !", ({ name := some "T", coords := none, enabled := some true,
                         tiles := some [("0000,0000,0,0", "AAAA")],
                         pixelCount := some 4 } : TemplateEntry))]).length :=
  claim3_amended_import_twice decodeAllRed freshManager importDocOne
    [("0 !", { name := some "T", coords := none, enabled := some true,
               tiles := some [("0000,0000,0,0", "AAAA")], pixelCount := some 4 })]
    "BlueMarble" rfl rfl rfl (by decide) rfl
    (by
      rintro kv hkv
      rw [List.mem_singleton] at hkv
      subst hkv
      exact ⟨[("0000,0000,0,0", imgRed)], rfl⟩)
